import Mathlib

/-!
Verification of the vLLM inference adapter
(`llama_stack/providers/adapters/inference/vllm/vllm.py`).

The adapter is embedded shallowly: each method of `VLLMInferenceAdapter`
becomes a pure Lean function over an explicit adapter state, the remote
OpenAI-compatible server becomes an explicit `Backend` value, and each
operation returns the list of backend calls it performed
(the trace) together with its result
(`Except AdapterError _`, modelling raised Python exceptions).
The asynchronous generator of the streaming path is modelled by the
finite list of chunks its full consumption produces.

Functions the adapter calls that live outside this source file
(`llama_models.sku_list`, the openai-compat helpers, the prompt adapter)
are modelled from the spec; each such definition says so in its doc comment.
-/

set_option autoImplicit false

/-- One entry of the static model catalog.  Modelled from the spec:
the catalog (`all_registered_models` / `resolve_model` from
`llama_models.sku_list`) lives outside this repository; spec section 4.1 and
design note 2 of section 9 treat it as an injected static catalog whose
entries carry a canonical descriptor and, when known, a HuggingFace
repository identifier (`model.descriptor()` and `model.huggingface_repo`). -/
structure CatalogModel where
  descriptor : String
  huggingface_repo : Option String
deriving DecidableEq

/-- Modelled from the spec: `resolve_model` from `llama_models.sku_list`
resolves a canonical model identifier against the catalog (the failing
lookup of spec section 4.1); it returns the entry whose descriptor matches,
or `none` when no entry exists. -/
def resolve_model (catalog : List CatalogModel) (name : String) : Option CatalogModel :=
  catalog.find? (fun m => m.descriptor == name)

/-- The registry mapping `self.huggingface_repo_to_llama_model_id` built in
`__init__` (vllm.py lines 35-39) by a dict comprehension over the catalog:
entries without a HuggingFace repo are skipped and, as in a Python dict,
a later entry with the same key overwrites an earlier one.  The dict is
represented by its lookup function. -/
def huggingface_repo_to_llama_model_id (catalog : List CatalogModel) (repo : String) :
    Option String :=
  match catalog with
  | [] => none
  | m :: rest =>
    match huggingface_repo_to_llama_model_id rest repo with
    | some d => some d
    | none => if m.huggingface_repo = some repo then some m.descriptor else none

/-- `VLLMInferenceAdapterConfig` (vllm/config.py): backend base URL, API
token and the default max-token ceiling. -/
structure VLLMInferenceAdapterConfig where
  url : String
  api_token : String
  max_tokens : Nat
deriving DecidableEq

/-- The transport handle built by `OpenAI(base_url=..., api_key=...)`. -/
structure OpenAIClient where
  base_url : String
  api_key : String
deriving DecidableEq

/-- Adapter state: the stored config, the (initially unbound) client and the
catalog the registry mapping was built from in `__init__`.  The source stores
the computed dict; the embedding stores the catalog and reads the dict
through `huggingface_repo_to_llama_model_id`, which is the same map. -/
structure VLLMInferenceAdapter where
  config : VLLMInferenceAdapterConfig
  client : Option OpenAIClient
  catalog : List CatalogModel
deriving DecidableEq

/-- `VLLMInferenceAdapter.__init__` (lines 31-39): stores the config, leaves
the client unbound (`self.client = None`) and builds the registry mapping. -/
def VLLMInferenceAdapter.init (config : VLLMInferenceAdapterConfig)
    (catalog : List CatalogModel) : VLLMInferenceAdapter :=
  { config := config, client := none, catalog := catalog }

/-- `initialize` (lines 41-42): binds the OpenAI client to the configured
base URL and API token. -/
def VLLMInferenceAdapter.initialize (a : VLLMInferenceAdapter) : VLLMInferenceAdapter :=
  { a with client := some { base_url := a.config.url, api_key := a.config.api_token } }

/-- `shutdown` (lines 47-48): the method body is `pass`. -/
def VLLMInferenceAdapter.shutdown (a : VLLMInferenceAdapter) : VLLMInferenceAdapter :=
  a

/-- The exceptions the adapter's code paths can raise.
 - `UnknownModel m` is `ValueError(f"Unknown model: {m}")` from `_get_params`
   (line 137); the spec's `UnknownModel`.
 - `NotImplementedError` is `raise NotImplementedError()` from `completion`
   and `embeddings`; classified `UnsupportedOperation` by the spec.
 - `RegistrationNotSupported` is `ValueError("Model registration is not
   supported for vLLM models")` from `register_model`; also classified
   `UnsupportedOperation` by the spec.
 - `NotInitialized` is the `AttributeError` Python raises when a method
   dereferences the still-`None` `self.client`; the spec's `NotInitialized`. -/
inductive AdapterError where
  | UnknownModel (model : String)
  | NotImplementedError
  | RegistrationNotSupported
  | NotInitialized
deriving DecidableEq

/-- The spec's `UnsupportedOperation` taxonomy entry (section 7): the two
exception shapes raised by the intentionally unimplemented operations. -/
def AdapterError.isUnsupportedOperation : AdapterError → Bool
  | .NotImplementedError => true
  | .RegistrationNotSupported => true
  | _ => false

/-- A role-tagged chat message (`llama_models` `Message`, content flattened
to text; the claims never inspect richer content). -/
structure Message where
  role : String
  content : String
deriving DecidableEq

/-- A tool made available to the model; the claims never inspect its shape. -/
structure ToolDefinition where
  tool_name : String
deriving DecidableEq

/-- `ToolChoice` from the inference API. -/
inductive ToolChoice where
  | auto
  | required
deriving DecidableEq

/-- `ToolPromptFormat` from the inference API. -/
inductive ToolPromptFormat where
  | json
  | function_tag
deriving DecidableEq

/-- `LogProbConfig` from the inference API; payload irrelevant to the claims. -/
structure LogProbConfig where
  top_k : Nat
deriving DecidableEq

/-- Sampling parameters of a request.  Only the optional explicit max-token
bound matters to the claims; `none` means no explicit bound was given. -/
structure SamplingParams where
  max_tokens : Option Nat
deriving DecidableEq

/-- The backend-native option fields extracted from the sampling params. -/
structure SamplingOptions where
  max_tokens : Option Nat
deriving DecidableEq

/-- Modelled from the spec: `get_sampling_options` (openai-compat utils,
outside this source file) extracts the explicitly set sampling options into
backend-native option names; per spec section 4.2 the max-token option is
present exactly when the request gives an explicit bound. -/
def get_sampling_options (params : SamplingParams) : SamplingOptions :=
  { max_tokens := params.max_tokens }

/-- `ChatCompletionRequest` as constructed in `chat_completion`
(lines 90-99). -/
structure ChatCompletionRequest where
  model : String
  messages : List Message
  sampling_params : SamplingParams
  tools : List ToolDefinition
  tool_choice : ToolChoice
  tool_prompt_format : ToolPromptFormat
  stream : Bool
  logprobs : Option LogProbConfig
deriving DecidableEq

/-- Modelled from the spec: `chat_completion_request_to_prompt` (prompt
adapter utils, outside this source file) flattens the messages into a single
prompt string via the model family's chat template; a fixed deterministic
flattening stands for the template. -/
def chat_completion_request_to_prompt (request : ChatCompletionRequest) : String :=
  String.intercalate "\n" (request.messages.map (fun m => m.role ++ ": " ++ m.content))

/-- The dict returned by `_get_params` (lines 139-144).  `model` is
`Option String` because a resolved catalog entry may carry no HuggingFace
repo, in which case the source passes `None` through. -/
structure BackendCallParams where
  model : Option String
  prompt : String
  stream : Bool
  max_tokens : Nat
deriving DecidableEq

/-- `_get_params` (lines 130-144): extracts sampling options, fills in the
configured default max-token ceiling when no explicit bound is present,
resolves the canonical model id (raising `UnknownModel` when unresolved)
and assembles the backend call parameters. -/
def VLLMInferenceAdapter.get_params (a : VLLMInferenceAdapter)
    (request : ChatCompletionRequest) : Except AdapterError BackendCallParams :=
  let options := get_sampling_options request.sampling_params
  let effective_max_tokens :=
    match options.max_tokens with
    | none => a.config.max_tokens
    | some n => n
  match resolve_model a.catalog request.model with
  | none => .error (.UnknownModel request.model)
  | some m =>
    .ok { model := m.huggingface_repo,
          prompt := chat_completion_request_to_prompt request,
          stream := request.stream,
          max_tokens := effective_max_tokens }

/-- One raw chunk of the backend's streamed response: a text delta and an
optional finish-reason signal. -/
structure RawChunk where
  delta : String
  finish_reason : Option String
deriving DecidableEq

/-- The backend's single (non-streaming) completion payload. -/
structure RawResponse where
  text : String
  finish_reason : Option String
deriving DecidableEq

/-- The remote OpenAI-compatible server: the model ids it reports on
`client.models.list()`, and its responses to `client.completions.create`
for the non-streaming and streaming cases. -/
structure Backend where
  served_models : List String
  response : BackendCallParams → RawResponse
  stream_chunks : BackendCallParams → List RawChunk

/-- One backend interaction, recorded in an operation's trace. -/
inductive BackendEvent where
  | completions_create (params : BackendCallParams)
  | models_list
deriving DecidableEq

/-- Finish-reason classification (spec glossary): length limit, natural /
stop-token boundary, or incomplete (no terminal signal received). -/
inductive StopReason where
  | end_of_turn
  | out_of_tokens
  | incomplete
deriving DecidableEq

/-- Classification of the backend's finish-reason string. -/
def classify_finish_reason (finish_reason : Option String) : StopReason :=
  match finish_reason with
  | some fr => if fr == "length" then .out_of_tokens else .end_of_turn
  | none => .incomplete

/-- A terminal chat completion response. -/
structure ChatCompletionResponse where
  content : String
  stop_reason : StopReason
deriving DecidableEq

/-- Modelled from the spec: `process_chat_completion_response`
(`normalize_once`, openai-compat utils, outside this source file) decodes
the backend's single payload into one terminal response with a classified
finish reason. -/
def process_chat_completion_response (r : RawResponse) : ChatCompletionResponse :=
  { content := r.text, stop_reason := classify_finish_reason r.finish_reason }

/-- Event type of a stream chunk; `complete` is the terminal marker. -/
inductive ChatCompletionResponseEventType where
  | start
  | progress
  | complete
deriving DecidableEq

/-- One normalized stream chunk. -/
structure ChatCompletionResponseStreamChunk where
  event_type : ChatCompletionResponseEventType
  delta : String
  stop_reason : Option StopReason
deriving DecidableEq

/-- A chunk is terminal when it carries the `complete` event. -/
def isTerminal (c : ChatCompletionResponseStreamChunk) : Bool :=
  match c.event_type with
  | .complete => true
  | _ => false

/-- A chunk carrying a forwarded delta. -/
def isProgress (c : ChatCompletionResponseStreamChunk) : Bool :=
  match c.event_type with
  | .progress => true
  | _ => false

/-- The fixed leading chunk of a normalized stream. -/
def startChunk : ChatCompletionResponseStreamChunk :=
  { event_type := .start, delta := "", stop_reason := none }

/-- The terminal chunk of a normalized stream. -/
def completeChunk (sr : StopReason) : ChatCompletionResponseStreamChunk :=
  { event_type := .complete, delta := "", stop_reason := some sr }

/-- One forwarded progress chunk. -/
def progressChunk (delta : String) : ChatCompletionResponseStreamChunk :=
  { event_type := .progress, delta := delta, stop_reason := none }

/-- Modelled from the spec: the chunk-consuming core of
`process_chat_completion_stream_response` (spec section 4.3) forwards one
progress delta per backend chunk, in arrival order, until the backend
signals completion with a chunk carrying a finish reason, which ends
consumption and records the classified stop reason. -/
def consume_raw_chunks :
    List RawChunk → List ChatCompletionResponseStreamChunk × Option StopReason
  | [] => ([], none)
  | c :: rest =>
    match c.finish_reason with
    | some fr => ([], some (classify_finish_reason (some fr)))
    | none =>
      (progressChunk c.delta :: (consume_raw_chunks rest).1, (consume_raw_chunks rest).2)

/-- Modelled from the spec: `process_chat_completion_stream_response`
(`normalize_stream`, openai-compat utils, outside this source file) emits a
start event, then the forwarded deltas in order, and always ends with
exactly one terminal `complete` chunk; when the backend sequence ends
without a terminal signal, the terminal chunk is synthesized with the
`incomplete` finish reason rather than hanging the consumer. -/
def process_chat_completion_stream_response (raw : List RawChunk) :
    List ChatCompletionResponseStreamChunk :=
  startChunk :: (consume_raw_chunks raw).1 ++
    [completeChunk (((consume_raw_chunks raw).2).getD .incomplete)]

/-- `_nonstream_chat_completion` (lines 105-110): builds the params first
(line 108, which may raise `UnknownModel`), then calls
`client.completions.create` exactly once and normalizes the payload.
Dereferencing a still-unbound (`None`) client raises before any backend
call is made. -/
def VLLMInferenceAdapter.nonstream_chat_completion (a : VLLMInferenceAdapter)
    (backend : Backend) (request : ChatCompletionRequest) (client : Option OpenAIClient) :
    List BackendEvent × Except AdapterError ChatCompletionResponse :=
  match a.get_params request with
  | .error e => ([], .error e)
  | .ok params =>
    match client with
    | none => ([], .error .NotInitialized)
    | some _ =>
      ([.completions_create params],
       .ok (process_chat_completion_response (backend.response params)))

/-- `_stream_chat_completion` (lines 112-128): builds the params first
(line 115, which may raise `UnknownModel`), then calls
`client.completions.create` once for the chunk stream and yields the
normalized chunks.  The async generator is modelled by the chunk list its
full consumption produces. -/
def VLLMInferenceAdapter.stream_chat_completion (a : VLLMInferenceAdapter)
    (backend : Backend) (request : ChatCompletionRequest) (client : Option OpenAIClient) :
    List BackendEvent × Except AdapterError (List ChatCompletionResponseStreamChunk) :=
  match a.get_params request with
  | .error e => ([], .error e)
  | .ok params =>
    match client with
    | none => ([], .error .NotInitialized)
    | some _ =>
      ([.completions_create params],
       .ok (process_chat_completion_stream_response (backend.stream_chunks params)))

/-- The two shapes `chat_completion` can produce. -/
inductive ChatCompletionResult where
  | response (r : ChatCompletionResponse)
  | stream (chunks : List ChatCompletionResponseStreamChunk)
deriving DecidableEq

/-- The `ChatCompletionRequest(...)` construction of `chat_completion`
(lines 90-99).  `tools or []` normalizes an absent tools argument to the
empty list (`Option.getD` agrees with Python truthiness here, since the
only falsy list is the empty one, which maps to itself). -/
def VLLMInferenceAdapter.chat_completion_request (model : String)
    (messages : List Message) (sampling_params : SamplingParams)
    (tools : Option (List ToolDefinition)) (tool_choice : ToolChoice)
    (tool_prompt_format : ToolPromptFormat) (stream : Bool)
    (logprobs : Option LogProbConfig) : ChatCompletionRequest :=
  { model := model,
    messages := messages,
    sampling_params := sampling_params,
    tools := tools.getD [],
    tool_choice := tool_choice,
    tool_prompt_format := tool_prompt_format,
    stream := stream,
    logprobs := logprobs }

/-- `chat_completion` (lines 78-103): builds the request, then dispatches on
`stream` to the streaming or non-streaming helper, passing `self.client`.
On the streaming path the source returns an async generator; its full
consumption is what the embedding evaluates. -/
def VLLMInferenceAdapter.chat_completion (a : VLLMInferenceAdapter) (backend : Backend)
    (model : String) (messages : List Message) (sampling_params : SamplingParams)
    (tools : Option (List ToolDefinition)) (tool_choice : ToolChoice)
    (tool_prompt_format : ToolPromptFormat) (stream : Bool)
    (logprobs : Option LogProbConfig) :
    List BackendEvent × Except AdapterError ChatCompletionResult :=
  let request := chat_completion_request model messages sampling_params tools
    tool_choice tool_prompt_format stream logprobs
  if stream then
    ((a.stream_chat_completion backend request a.client).1,
     (a.stream_chat_completion backend request a.client).2.map ChatCompletionResult.stream)
  else
    ((a.nonstream_chat_completion backend request a.client).1,
     (a.nonstream_chat_completion backend request a.client).2.map ChatCompletionResult.response)

/-- `ModelDef(identifier=..., llama_model=...)` as built by `list_models`. -/
structure ModelDef where
  identifier : String
  llama_model : String
deriving DecidableEq

/-- `list_models` (lines 50-65): dereferences `self.client` (raising when
unbound), queries the backend's served models once, keeps each reported id
found in the registry mapping (building a descriptor from its canonical id)
and silently skips the rest. -/
def VLLMInferenceAdapter.list_models (a : VLLMInferenceAdapter) (backend : Backend) :
    List BackendEvent × Except AdapterError (List ModelDef) :=
  match a.client with
  | none => ([], .error .NotInitialized)
  | some _ =>
    ([.models_list],
     .ok (backend.served_models.filterMap (fun repo =>
       (huggingface_repo_to_llama_model_id a.catalog repo).map
         (fun identifier => { identifier := identifier, llama_model := identifier }))))

/-- `completion` (lines 67-76): the body is `raise NotImplementedError()`;
no backend call, no state change, no value. -/
def VLLMInferenceAdapter.completion (a : VLLMInferenceAdapter) (model : String)
    (content : String) (sampling_params : SamplingParams)
    (response_format : Option String) (stream : Bool)
    (logprobs : Option LogProbConfig) :
    VLLMInferenceAdapter × List BackendEvent × Except AdapterError Unit :=
  (a, [], .error .NotImplementedError)

/-- `embeddings` (lines 146-151): the body is `raise NotImplementedError()`. -/
def VLLMInferenceAdapter.embeddings (a : VLLMInferenceAdapter) (model : String)
    (contents : List String) :
    VLLMInferenceAdapter × List BackendEvent × Except AdapterError Unit :=
  (a, [], .error .NotImplementedError)

/-- `register_model` (lines 44-45): the body is `raise ValueError("Model
registration is not supported for vLLM models")`. -/
def VLLMInferenceAdapter.register_model (a : VLLMInferenceAdapter) (model : ModelDef) :
    VLLMInferenceAdapter × List BackendEvent × Except AdapterError Unit :=
  (a, [], .error .RegistrationNotSupported)

/-- Spec section 4.1 `resolve_backend_id`, as `_get_params` performs it
(lines 135-140): `resolve_model` followed by reading the entry's
HuggingFace repo. -/
def resolve_backend_id (catalog : List CatalogModel) (canonical_id : String) :
    Option String :=
  (resolve_model catalog canonical_id).bind (fun m => m.huggingface_repo)

/-- Spec section 4.1 `resolve_canonical_id`: the non-failing lookup in the
registry dict, as `list_models` performs it (lines 54-58). -/
def resolve_canonical_id (catalog : List CatalogModel) (backend_repo_id : String) :
    Option String :=
  huggingface_repo_to_llama_model_id catalog backend_repo_id

/-- The uniqueness invariant of spec section 3: each backend repo id is
carried by catalog entries of a single canonical id. -/
def repoKeysUnique (catalog : List CatalogModel) : Prop :=
  ∀ m1 ∈ catalog, ∀ m2 ∈ catalog,
    m1.huggingface_repo.isSome → m1.huggingface_repo = m2.huggingface_repo →
      m1.descriptor = m2.descriptor

instance (catalog : List CatalogModel) : Decidable (repoKeysUnique catalog) := by
  unfold repoKeysUnique
  exact inferInstance

/-! ### Concrete fixtures used by witnesses and counterexamples -/

/-- A one-entry catalog: canonical id `llama3-8b`, backend repo
`org/llama-3-8b` (the spec's running example). -/
def sampleCatalog : List CatalogModel :=
  [{ descriptor := "llama3-8b", huggingface_repo := some "org/llama-3-8b" }]

/-- A concrete configuration. -/
def sampleConfig : VLLMInferenceAdapterConfig :=
  { url := "http://localhost:8000", api_token := "token", max_tokens := 4096 }

/-- A freshly constructed, not yet initialized adapter. -/
def uninitAdapter : VLLMInferenceAdapter :=
  VLLMInferenceAdapter.init sampleConfig sampleCatalog

/-- The same adapter once `initialize()` has run. -/
def sampleAdapter : VLLMInferenceAdapter :=
  VLLMInferenceAdapter.initialize uninitAdapter

/-- A backend serving one registry-known and one unknown model (the spec's
`list_models` example), with fixed completion behaviour. -/
def sampleBackend : Backend :=
  { served_models := ["org/llama-3-8b", "org/unknown-model"],
    response := fun _ => { text := "hello", finish_reason := some "stop" },
    stream_chunks := fun _ => [{ delta := "he", finish_reason := none },
                               { delta := "llo", finish_reason := none }] }

/-- A backend that reports the same registry-known model id twice. -/
def dupBackend : Backend :=
  { served_models := ["org/llama-3-8b", "org/llama-3-8b"],
    response := fun _ => { text := "", finish_reason := none },
    stream_chunks := fun _ => [] }

/-! ### Registry mapping lemmas -/

/-- A catalog entry carrying a repo guarantees the dict lookup of that repo
succeeds. -/
theorem lookup_isSome_of_mem (catalog : List CatalogModel) (m : CatalogModel)
    (r : String) (hm : m ∈ catalog) (hr : m.huggingface_repo = some r) :
    (huggingface_repo_to_llama_model_id catalog r).isSome := by
  induction catalog with
  | nil => cases hm
  | cons head tail ih =>
    rcases List.mem_cons.mp hm with h | h
    · subst h
      unfold huggingface_repo_to_llama_model_id
      cases htail : huggingface_repo_to_llama_model_id tail r with
      | some d => simp
      | none => simp [hr]
    · have := ih h
      unfold huggingface_repo_to_llama_model_id
      cases htail : huggingface_repo_to_llama_model_id tail r with
      | some d => simp
      | none => rw [htail] at this; simp at this

/-- Any successful dict lookup comes from a catalog entry with that repo. -/
theorem lookup_some_inv (catalog : List CatalogModel) (r d : String)
    (h : huggingface_repo_to_llama_model_id catalog r = some d) :
    ∃ m ∈ catalog, m.huggingface_repo = some r ∧ m.descriptor = d := by
  induction catalog with
  | nil => simp [huggingface_repo_to_llama_model_id] at h
  | cons head tail ih =>
    unfold huggingface_repo_to_llama_model_id at h
    cases htail : huggingface_repo_to_llama_model_id tail r with
    | some d0 =>
      rw [htail] at h
      obtain ⟨m, hm, hmr, hmd⟩ := ih (htail.trans h)
      exact ⟨m, List.mem_cons_of_mem _ hm, hmr, hmd⟩
    | none =>
      rw [htail] at h
      by_cases hh : head.huggingface_repo = some r
      · simp [hh] at h
        exact ⟨head, List.mem_cons_self _ _, hh, h⟩
      · simp [hh] at h

/-- **C2.** For every canonical id that the registry resolves to a backend
repo id, looking that backend id up in the adapter's repo-to-canonical dict
returns the original canonical id, provided the catalog satisfies the
claim's uniqueness invariant (each backend repo id belongs to one canonical
id). -/
theorem registry_round_trip (catalog : List CatalogModel)
    (canonical_id backend_repo_id : String)
    (huniq : repoKeysUnique catalog)
    (hres : resolve_backend_id catalog canonical_id = some backend_repo_id) :
    resolve_canonical_id catalog backend_repo_id = some canonical_id := by
  unfold resolve_backend_id at hres
  cases hfind : resolve_model catalog canonical_id with
  | none => rw [hfind] at hres; simp at hres
  | some m =>
    rw [hfind] at hres
    simp only [Option.bind] at hres
    have hmem : m ∈ catalog := List.mem_of_find?_eq_some hfind
    have hdesc : m.descriptor = canonical_id := by
      have := List.find?_some hfind
      simpa using this
    have hsome := lookup_isSome_of_mem catalog m backend_repo_id hmem hres
    cases hlook : huggingface_repo_to_llama_model_id catalog backend_repo_id with
    | none => rw [hlook] at hsome; simp at hsome
    | some d =>
      obtain ⟨m2, hm2, hm2r, hm2d⟩ := lookup_some_inv catalog backend_repo_id d hlook
      have : m.descriptor = m2.descriptor := by
        apply huniq m hmem m2 hm2
        · rw [hres]; rfl
        · rw [hres, hm2r]
      rw [resolve_canonical_id, hlook, ← hm2d, ← this, hdesc]

/-- Witness for C2 at the sample catalog. -/
theorem registry_round_trip_witness :
    repoKeysUnique sampleCatalog ∧
    resolve_backend_id sampleCatalog "llama3-8b" = some "org/llama-3-8b" ∧
    resolve_canonical_id sampleCatalog "org/llama-3-8b" = some "llama3-8b" :=
  ⟨by decide, rfl, registry_round_trip sampleCatalog "llama3-8b" "org/llama-3-8b"
    (by decide) rfl⟩

/-- **C1.** A chat completion addressing a model the registry does not
resolve fails with `UnknownModel` and performs no backend call, on both the
streaming and non-streaming paths. -/
theorem chat_completion_unknown_model (a : VLLMInferenceAdapter) (backend : Backend)
    (model : String) (messages : List Message) (sampling_params : SamplingParams)
    (tools : Option (List ToolDefinition)) (tool_choice : ToolChoice)
    (tool_prompt_format : ToolPromptFormat) (stream : Bool)
    (logprobs : Option LogProbConfig)
    (h : resolve_model a.catalog model = none) :
    a.chat_completion backend model messages sampling_params tools tool_choice
        tool_prompt_format stream logprobs =
      ([], .error (.UnknownModel model)) := by
  cases stream <;>
    simp [VLLMInferenceAdapter.chat_completion,
      VLLMInferenceAdapter.chat_completion_request,
      VLLMInferenceAdapter.stream_chat_completion,
      VLLMInferenceAdapter.nonstream_chat_completion,
      VLLMInferenceAdapter.get_params, h, Except.map]

/-- Witness for C1: concrete unknown model on the sample adapter. -/
theorem chat_completion_unknown_model_witness :
    resolve_model sampleAdapter.catalog "mystery-model" = none ∧
    sampleAdapter.chat_completion sampleBackend "mystery-model" [] ⟨none⟩ none
        .auto .json true none = ([], .error (.UnknownModel "mystery-model")) :=
  ⟨rfl, chat_completion_unknown_model sampleAdapter sampleBackend "mystery-model"
    [] ⟨none⟩ none .auto .json true none rfl⟩

/-! ### Stream normalization lemmas -/

/-- The forwarded body of a normalized stream is, in order, one progress
chunk per backend chunk that precedes the backend's terminal signal. -/
theorem consume_raw_chunks_fst (raw : List RawChunk) :
    (consume_raw_chunks raw).1 =
      (raw.takeWhile (fun rc => rc.finish_reason.isNone)).map
        (fun rc => progressChunk rc.delta) := by
  induction raw with
  | nil => rfl
  | cons c rest ih =>
    cases hfr : c.finish_reason with
    | some fr => simp [consume_raw_chunks, hfr, List.takeWhile_cons]
    | none => simp [consume_raw_chunks, hfr, List.takeWhile_cons, ih]

/-- The normalized stream, written as a concatenation ending in its terminal
chunk. -/
theorem process_stream_concat (raw : List RawChunk) :
    process_chat_completion_stream_response raw =
      (startChunk :: (consume_raw_chunks raw).1) ++
        [completeChunk (((consume_raw_chunks raw).2).getD .incomplete)] := rfl

/-- Progress filtering keeps every forwarded body chunk and projecting the
deltas back recovers the backend deltas. -/
theorem filter_progress_body (l : List RawChunk) :
    ((l.map (fun rc => progressChunk rc.delta)).filter isProgress).map
        (fun c => c.delta) =
      l.map (fun rc => rc.delta) := by
  induction l with
  | nil => rfl
  | cons x xs ih =>
    have hp : isProgress (progressChunk x.delta) = true := rfl
    have hd : (progressChunk x.delta).delta = x.delta := rfl
    simp [List.filter_cons, hp, hd, ih]

/-- A normalized stream is non-empty, forwards exactly the pre-terminal
backend deltas in order, ends in the terminal chunk, and contains no
terminal chunk anywhere else. -/
theorem process_stream_shape (raw : List RawChunk) :
    process_chat_completion_stream_response raw ≠ [] ∧
    ((process_chat_completion_stream_response raw).filter isProgress).map
        (fun c => c.delta) =
      (raw.takeWhile (fun rc => rc.finish_reason.isNone)).map
        (fun rc => rc.delta) ∧
    (process_chat_completion_stream_response raw).getLast? =
      some (completeChunk (((consume_raw_chunks raw).2).getD .incomplete)) ∧
    ∀ c ∈ (process_chat_completion_stream_response raw).dropLast,
      isTerminal c = false := by
  refine ⟨by simp [process_chat_completion_stream_response], ?_, ?_, ?_⟩
  · rw [process_stream_concat, consume_raw_chunks_fst]
    have hs : isProgress startChunk = false := rfl
    have hcx : ∀ sr, isProgress (completeChunk sr) = false := fun _ => rfl
    simp [List.filter_append, List.filter_cons, hs, hcx, filter_progress_body]
  · rw [process_stream_concat]
    exact List.getLast?_concat _
  · rw [process_stream_concat, List.dropLast_concat]
    intro c hc
    rcases List.mem_cons.mp hc with h | h
    · subst h; rfl
    · rw [consume_raw_chunks_fst] at h
      obtain ⟨rc, _, hrc⟩ := List.mem_map.mp h
      rw [← hrc]; rfl

/-- **C3.** On the streaming path with a bound client and a registry-known
model, `chat_completion` performs one backend call and produces a non-empty
chunk sequence that forwards the backend deltas in their order; its last
chunk — and only its last chunk — is terminal, and the terminal chunk is
synthesized even when no backend chunk carries a finish signal (no
hypothesis on `backend.stream_chunks` is needed). -/
theorem stream_chunk_sequence (a : VLLMInferenceAdapter) (backend : Backend)
    (model : String) (messages : List Message) (sampling_params : SamplingParams)
    (tools : Option (List ToolDefinition)) (tool_choice : ToolChoice)
    (tool_prompt_format : ToolPromptFormat) (logprobs : Option LogProbConfig)
    (cl : OpenAIClient) (m : CatalogModel)
    (hc : a.client = some cl) (hm : resolve_model a.catalog model = some m) :
    ∃ params chunks lastC,
      a.chat_completion backend model messages sampling_params tools tool_choice
          tool_prompt_format true logprobs =
        ([.completions_create params], .ok (.stream chunks)) ∧
      chunks ≠ [] ∧
      (chunks.filter isProgress).map (fun c => c.delta) =
        ((backend.stream_chunks params).takeWhile
            (fun rc => rc.finish_reason.isNone)).map (fun rc => rc.delta) ∧
      chunks.getLast? = some lastC ∧
      isTerminal lastC = true ∧
      ∀ c ∈ chunks.dropLast, isTerminal c = false := by
  cases hparams : a.get_params (VLLMInferenceAdapter.chat_completion_request model
      messages sampling_params tools tool_choice tool_prompt_format true logprobs) with
  | error e =>
    exfalso
    simp only [VLLMInferenceAdapter.get_params,
      VLLMInferenceAdapter.chat_completion_request, hm] at hparams
    exact Except.noConfusion hparams
  | ok params =>
  refine ⟨params,
    process_chat_completion_stream_response (backend.stream_chunks params),
    completeChunk (((consume_raw_chunks (backend.stream_chunks params)).2).getD
      .incomplete),
    ?_, (process_stream_shape _).1, (process_stream_shape _).2.1,
    (process_stream_shape _).2.2.1, rfl, (process_stream_shape _).2.2.2⟩
  simp [VLLMInferenceAdapter.chat_completion,
    VLLMInferenceAdapter.stream_chat_completion, hparams, hc, Except.map]

/-- Witness for C3 at the sample adapter and backend. -/
theorem stream_chunk_sequence_witness :
    sampleAdapter.client =
      some { base_url := "http://localhost:8000", api_key := "token" } ∧
    resolve_model sampleAdapter.catalog "llama3-8b" =
      some { descriptor := "llama3-8b",
             huggingface_repo := some "org/llama-3-8b" } ∧
    (∃ params chunks lastC,
      sampleAdapter.chat_completion sampleBackend "llama3-8b" [] ⟨none⟩ none
          .auto .json true none =
        ([.completions_create params], .ok (.stream chunks)) ∧
      chunks ≠ [] ∧
      (chunks.filter isProgress).map (fun c => c.delta) =
        ((sampleBackend.stream_chunks params).takeWhile
            (fun rc => rc.finish_reason.isNone)).map (fun rc => rc.delta) ∧
      chunks.getLast? = some lastC ∧
      isTerminal lastC = true ∧
      ∀ c ∈ chunks.dropLast, isTerminal c = false) :=
  ⟨rfl, rfl, stream_chunk_sequence sampleAdapter sampleBackend "llama3-8b" []
    ⟨none⟩ none .auto .json none _ _ rfl rfl⟩

/-- **C4.** On the non-streaming path with a bound client and a
registry-known model, `chat_completion` performs exactly one backend
completions call and returns exactly one terminal response. -/
theorem nonstream_single_call (a : VLLMInferenceAdapter) (backend : Backend)
    (model : String) (messages : List Message) (sampling_params : SamplingParams)
    (tools : Option (List ToolDefinition)) (tool_choice : ToolChoice)
    (tool_prompt_format : ToolPromptFormat) (logprobs : Option LogProbConfig)
    (cl : OpenAIClient) (m : CatalogModel)
    (hc : a.client = some cl) (hm : resolve_model a.catalog model = some m) :
    ∃ params response,
      a.chat_completion backend model messages sampling_params tools tool_choice
          tool_prompt_format false logprobs =
        ([.completions_create params], .ok (.response response)) := by
  cases hparams : a.get_params (VLLMInferenceAdapter.chat_completion_request model
      messages sampling_params tools tool_choice tool_prompt_format false logprobs) with
  | error e =>
    exfalso
    simp only [VLLMInferenceAdapter.get_params,
      VLLMInferenceAdapter.chat_completion_request, hm] at hparams
    exact Except.noConfusion hparams
  | ok params =>
    refine ⟨params, process_chat_completion_response (backend.response params), ?_⟩
    simp [VLLMInferenceAdapter.chat_completion,
      VLLMInferenceAdapter.nonstream_chat_completion, hparams, hc, Except.map]

/-- Witness for C4 at the sample adapter and backend. -/
theorem nonstream_single_call_witness :
    sampleAdapter.client =
      some { base_url := "http://localhost:8000", api_key := "token" } ∧
    resolve_model sampleAdapter.catalog "llama3-8b" =
      some { descriptor := "llama3-8b",
             huggingface_repo := some "org/llama-3-8b" } ∧
    (∃ params response,
      sampleAdapter.chat_completion sampleBackend "llama3-8b" [] ⟨none⟩ none
          .auto .json false none =
        ([.completions_create params], .ok (.response response))) :=
  ⟨rfl, rfl, nonstream_single_call sampleAdapter sampleBackend "llama3-8b" []
    ⟨none⟩ none .auto .json none _ _ rfl rfl⟩

/-- Counterexample to C5 as stated: a backend may report the same
registry-known identifier twice, and `list_models` then returns two
descriptors for that one reported identifier, not exactly one. -/
theorem list_models_duplicate_counterexample :
    sampleAdapter.list_models dupBackend =
      ([.models_list],
       .ok [{ identifier := "llama3-8b", llama_model := "llama3-8b" },
            { identifier := "llama3-8b", llama_model := "llama3-8b" }]) ∧
    resolve_canonical_id sampleAdapter.catalog "org/llama-3-8b" =
      some "llama3-8b" ∧
    ¬ (([{ identifier := "llama3-8b", llama_model := "llama3-8b" },
         { identifier := "llama3-8b", llama_model := "llama3-8b" }] :
            List ModelDef).countP
          (fun d => d.identifier == "llama3-8b") = 1) :=
  ⟨rfl, rfl, by decide⟩

/-- **C5 (amended).** `list_models` returns one descriptor per occurrence of
a reported identifier present in the registry mapping (carrying its
canonical id), in backend order, and silently omits every occurrence absent
from the mapping, returning normally. -/
theorem list_models_per_occurrence (a : VLLMInferenceAdapter) (backend : Backend)
    (cl : OpenAIClient) (hc : a.client = some cl) :
    ∃ l, a.list_models backend = ([.models_list], .ok l) ∧
      l.map (fun d => d.identifier) =
        backend.served_models.filterMap (resolve_canonical_id a.catalog) ∧
      ∀ d ∈ l, d.llama_model = d.identifier := by
  refine ⟨backend.served_models.filterMap (fun repo =>
      (huggingface_repo_to_llama_model_id a.catalog repo).map
        (fun identifier => { identifier := identifier, llama_model := identifier })),
    ?_, ?_, ?_⟩
  · simp [VLLMInferenceAdapter.list_models, hc]
  · rw [List.map_filterMap]
    unfold resolve_canonical_id
    congr 1
    funext repo
    cases huggingface_repo_to_llama_model_id a.catalog repo <;> rfl
  · intro d hd
    obtain ⟨repo, _, hrepo⟩ := List.mem_filterMap.mp hd
    cases hcase : huggingface_repo_to_llama_model_id a.catalog repo with
    | none => rw [hcase] at hrepo; simp at hrepo
    | some i =>
      rw [hcase] at hrepo
      simp only [Option.map_some'] at hrepo
      have hdd := Option.some.inj hrepo
      subst hdd
      rfl

/-- Witness for C5 (amended): the spec's own example, a backend reporting
one known and one unknown model. -/
theorem list_models_per_occurrence_witness :
    sampleAdapter.client =
      some { base_url := "http://localhost:8000", api_key := "token" } ∧
    (∃ l, sampleAdapter.list_models sampleBackend = ([.models_list], .ok l) ∧
      l.map (fun d => d.identifier) =
        sampleBackend.served_models.filterMap
          (resolve_canonical_id sampleAdapter.catalog) ∧
      ∀ d ∈ l, d.llama_model = d.identifier) :=
  ⟨rfl, list_models_per_occurrence sampleAdapter sampleBackend _ rfl⟩

/-- **C6.** `completion`, `embeddings` and `register_model` fail on every
input with an exception the spec classifies `UnsupportedOperation`, perform
no backend call and leave the adapter state unchanged. -/
theorem unsupported_operations (a : VLLMInferenceAdapter) (model : String)
    (content : String) (sampling_params : SamplingParams)
    (response_format : Option String) (stream : Bool)
    (logprobs : Option LogProbConfig) (contents : List String) (md : ModelDef) :
    a.completion model content sampling_params response_format stream logprobs =
        (a, [], .error .NotImplementedError) ∧
    a.embeddings model contents = (a, [], .error .NotImplementedError) ∧
    a.register_model md = (a, [], .error .RegistrationNotSupported) ∧
    AdapterError.isUnsupportedOperation .NotImplementedError = true ∧
    AdapterError.isUnsupportedOperation .RegistrationNotSupported = true :=
  ⟨rfl, rfl, rfl, rfl, rfl⟩

/-- Counterexample to C7 as stated: on an adapter on which `initialize()` has
never run, `chat_completion` addressing a model absent from the registry
fails with `UnknownModel`, not `NotInitialized` — model resolution in
`_get_params` runs before the unbound client is ever dereferenced. -/
theorem uninitialized_unknown_model_counterexample :
    uninitAdapter.client = none ∧
    uninitAdapter.chat_completion sampleBackend "mystery-model" [] ⟨none⟩ none
        .auto .json false none =
      ([], .error (.UnknownModel "mystery-model")) ∧
    AdapterError.UnknownModel "mystery-model" ≠ AdapterError.NotInitialized :=
  ⟨rfl, rfl, by decide⟩

/-- **C7 (amended).** Every data operation invoked before `initialize()`
fails before any backend interaction (the trace is empty): `list_models`
fails with the unbound-client error (the spec's `NotInitialized`), and
`chat_completion` fails with that error when the model is registry-known but
with `UnknownModel` when it is not, on both streaming and non-streaming
paths. -/
theorem uninitialized_fails_before_backend (a : VLLMInferenceAdapter)
    (backend : Backend) (model : String) (messages : List Message)
    (sampling_params : SamplingParams) (tools : Option (List ToolDefinition))
    (tool_choice : ToolChoice) (tool_prompt_format : ToolPromptFormat)
    (stream : Bool) (logprobs : Option LogProbConfig)
    (hc : a.client = none) :
    a.list_models backend = ([], .error .NotInitialized) ∧
    (a.chat_completion backend model messages sampling_params tools tool_choice
        tool_prompt_format stream logprobs).1 = [] ∧
    (∀ m, resolve_model a.catalog model = some m →
      (a.chat_completion backend model messages sampling_params tools tool_choice
          tool_prompt_format stream logprobs).2 = .error .NotInitialized) ∧
    (resolve_model a.catalog model = none →
      (a.chat_completion backend model messages sampling_params tools tool_choice
          tool_prompt_format stream logprobs).2 =
        .error (.UnknownModel model)) := by
  refine ⟨by simp [VLLMInferenceAdapter.list_models, hc], ?_, ?_, ?_⟩
  · cases hr : resolve_model a.catalog model <;> cases stream <;>
      simp [VLLMInferenceAdapter.chat_completion,
        VLLMInferenceAdapter.chat_completion_request,
        VLLMInferenceAdapter.stream_chat_completion,
        VLLMInferenceAdapter.nonstream_chat_completion,
        VLLMInferenceAdapter.get_params, get_sampling_options, hr, hc,
        Except.map]
  · intro m hm
    cases stream <;>
      simp [VLLMInferenceAdapter.chat_completion,
        VLLMInferenceAdapter.chat_completion_request,
        VLLMInferenceAdapter.stream_chat_completion,
        VLLMInferenceAdapter.nonstream_chat_completion,
        VLLMInferenceAdapter.get_params, get_sampling_options, hm, hc,
        Except.map]
  · intro hr
    cases stream <;>
      simp [VLLMInferenceAdapter.chat_completion,
        VLLMInferenceAdapter.chat_completion_request,
        VLLMInferenceAdapter.stream_chat_completion,
        VLLMInferenceAdapter.nonstream_chat_completion,
        VLLMInferenceAdapter.get_params, get_sampling_options, hr, hc,
        Except.map]

/-- Witness for C7 (amended) on the freshly constructed adapter. -/
theorem uninitialized_fails_before_backend_witness :
    uninitAdapter.client = none ∧
    (uninitAdapter.list_models sampleBackend = ([], .error .NotInitialized) ∧
    (uninitAdapter.chat_completion sampleBackend "llama3-8b" [] ⟨none⟩ none
        .auto .json false none).1 = [] ∧
    (∀ m, resolve_model uninitAdapter.catalog "llama3-8b" = some m →
      (uninitAdapter.chat_completion sampleBackend "llama3-8b" [] ⟨none⟩ none
          .auto .json false none).2 = .error .NotInitialized) ∧
    (resolve_model uninitAdapter.catalog "llama3-8b" = none →
      (uninitAdapter.chat_completion sampleBackend "llama3-8b" [] ⟨none⟩ none
          .auto .json false none).2 = .error (.UnknownModel "llama3-8b"))) :=
  ⟨rfl, uninitialized_fails_before_backend uninitAdapter sampleBackend
    "llama3-8b" [] ⟨none⟩ none .auto .json false none rfl⟩

/-- **C8.** For a registry-known model, the backend call parameters carry
the configured default max-token ceiling when the request gives no explicit
bound, and the explicit bound when one is given. -/
theorem get_params_max_token_default (a : VLLMInferenceAdapter)
    (request : ChatCompletionRequest) (m : CatalogModel)
    (hm : resolve_model a.catalog request.model = some m) :
    ∃ params, a.get_params request = .ok params ∧
      (request.sampling_params.max_tokens = none →
        params.max_tokens = a.config.max_tokens) ∧
      ∀ n, request.sampling_params.max_tokens = some n →
        params.max_tokens = n := by
  refine ⟨{ model := m.huggingface_repo,
            prompt := chat_completion_request_to_prompt request,
            stream := request.stream,
            max_tokens :=
              match request.sampling_params.max_tokens with
              | none => a.config.max_tokens
              | some n => n }, ?_, ?_, ?_⟩
  · simp only [VLLMInferenceAdapter.get_params, get_sampling_options, hm]
  · intro h
    simp only [h]
  · intro n h
    simp only [h]

/-- Witness for C8: a request with no explicit bound gets the configured
ceiling. -/
theorem get_params_max_token_default_witness :
    resolve_model sampleAdapter.catalog "llama3-8b" =
      some { descriptor := "llama3-8b",
             huggingface_repo := some "org/llama-3-8b" } ∧
    (∃ params, sampleAdapter.get_params
        { model := "llama3-8b", messages := [], sampling_params := ⟨none⟩,
          tools := [], tool_choice := .auto, tool_prompt_format := .json,
          stream := false, logprobs := none } = .ok params ∧
      ((⟨none⟩ : SamplingParams).max_tokens = none →
        params.max_tokens = sampleAdapter.config.max_tokens) ∧
      ∀ n, (⟨none⟩ : SamplingParams).max_tokens = some n →
        params.max_tokens = n) :=
  ⟨rfl, get_params_max_token_default sampleAdapter
    { model := "llama3-8b", messages := [], sampling_params := ⟨none⟩,
      tools := [], tool_choice := .auto, tool_prompt_format := .json,
      stream := false, logprobs := none } _ rfl⟩

/-- Counterexample to C9 as stated: after `shutdown()` returns, the adapter
still holds the bound transport handle — nothing is released, because the
method body is `pass`. -/
theorem shutdown_releases_nothing_counterexample :
    sampleAdapter.client =
      some { base_url := "http://localhost:8000", api_key := "token" } ∧
    (VLLMInferenceAdapter.shutdown sampleAdapter).client =
      some { base_url := "http://localhost:8000", api_key := "token" } ∧
    (VLLMInferenceAdapter.shutdown sampleAdapter).client ≠ none :=
  ⟨rfl, rfl, by decide⟩

/-- **C9 (amended).** `shutdown()` never fails and calling it any number of
times is a no-op, but it does not release the Transport Client: the adapter
state, including the bound client handle, is unchanged. -/
theorem shutdown_noop_idempotent (a : VLLMInferenceAdapter) :
    VLLMInferenceAdapter.shutdown a = a ∧
    VLLMInferenceAdapter.shutdown (VLLMInferenceAdapter.shutdown a) =
      VLLMInferenceAdapter.shutdown a ∧
    (VLLMInferenceAdapter.shutdown a).client = a.client :=
  ⟨rfl, rfl, rfl⟩

/-- **C10.** When the `tools` argument is `None` (or omitted, its default),
the request constructed by `chat_completion` carries the empty tools list. -/
theorem chat_request_tools_none (model : String) (messages : List Message)
    (sampling_params : SamplingParams) (tool_choice : ToolChoice)
    (tool_prompt_format : ToolPromptFormat) (stream : Bool)
    (logprobs : Option LogProbConfig) :
    (VLLMInferenceAdapter.chat_completion_request model messages sampling_params
        none tool_choice tool_prompt_format stream logprobs).tools = [] :=
  rfl
